import Mathlib

/-!
Shallow embedding of the `option` package (files `src/option/option_.py` and
`src/option/result.py`): an `Option`-style container (`Opt`, variants
`Some`/`NONE`) and a `Result`-style container (`Res`, variants `Ok`/`Err`),
with their factories, construction guard, combinators, extraction methods,
equality, ordering and hashing, and the Result→Option bridge.

Python's dynamically typed payloads are modelled by the value universe
`PyVal` (the null sentinel `None`, integers, strings, and string-keyed
mappings).  Python exceptions are modelled by `Except PyErr`.
-/

/-- Scalar Python values allowed as mapping entries: the `None` sentinel,
integers and strings. -/
inductive PyScalar : Type where
  | snone : PyScalar
  | sint (n : Int) : PyScalar
  | sstr (s : String) : PyScalar
deriving DecidableEq, Repr

/-- Universe of Python payload values used by the containers: the `None`
sentinel, integers, strings, and string-keyed mappings (dicts) with scalar
values. -/
inductive PyVal : Type where
  | vnone : PyVal
  | vint (n : Int) : PyVal
  | vstr (s : String) : PyVal
  | vdict (entries : List (String × PyScalar)) : PyVal
deriving DecidableEq, Repr

/-- Injection of scalar values into the payload universe. -/
def PyScalar.toVal : PyScalar → PyVal
  | .snone => .vnone
  | .sint n => .vint n
  | .sstr s => .vstr s

/-- Python `isinstance(v, Mapping)`: whether a payload is map-shaped. -/
def PyVal.isMapping : PyVal → Bool
  | .vdict _ => true
  | _ => false

/-- First-match association-list lookup; Python dict keys are unique, so
this is the dict lookup `entries[key]` as an `Option`. -/
def dictLookup : List (String × PyScalar) → String → Option PyScalar
  | [], _ => none
  | (k, v) :: rest, key => if k = key then some v else dictLookup rest key

/-- Python's `Mapping.get(key, default)`: the stored value when the key
exists, otherwise `default`; never raises. -/
def dictGet (entries : List (String × PyScalar)) (key : String)
    (default : PyVal) : PyVal :=
  match dictLookup entries key with
  | some v => v.toVal
  | none => default

/-- Python exceptions raised by the containers: `ValueError` (the spec's
`EmptyValueError`/`UnwrapError`, carrying a payload object as message) and
`TypeError` (the spec's `ConstructionGuardError`). -/
inductive PyErr : Type where
  | valueError (msg : PyVal) : PyErr
  | typeError (msg : String) : PyErr
deriving DecidableEq, Repr

/-- The construction-guard message raised by both `__init__` methods. -/
def guardMsg : String :=
  "Cannot directly initialize, please use one of the factory functions instead."

/-- The `Option[T]` container of `option_.py`: slots `_val` and `_is_some`
(`Some(x)` has `is_some = true`; the `NONE` singleton has `val = None`,
`is_some = false`). -/
structure Opt : Type where
  val : PyVal
  is_some : Bool
deriving DecidableEq, Repr

namespace Opt

/-- Python `Option.Some(val)`: the state produced by `cls(val, True, _force=True)`. -/
def Some (v : PyVal) : Opt := ⟨v, true⟩

/-- The module-level singleton `NONE = Option(None, False, _force=True)`. -/
def NONE : Opt := ⟨.vnone, false⟩

/-- Python `Option.maybe(val)`: `NONE` if `val is None`, else `Some(val)`. -/
def maybe (v : PyVal) : Opt :=
  if v = .vnone then NONE else Some v

/-- Python `Option.__init__(value, is_some, _force)`: raises `TypeError(guardMsg)`
unless `_force` is set, otherwise assigns the slots. -/
def init (value : PyVal) (is_some force : Bool) : Except PyErr Opt :=
  if !force then .error (.typeError guardMsg)
  else .ok ⟨value, is_some⟩

/-- Python `Option.Some` as its Python body runs it: `cls(val, True, _force=True)`. -/
def SomeE (v : PyVal) : Except PyErr Opt := init v true true

/-- Construction of the `NONE` singleton as the module body runs it:
`Option(None, False, _force=True)`. -/
def NONEE : Except PyErr Opt := init .vnone false true

/-- Python `Option.maybe` as its Python body runs it: it dispatches to the `NONE`
singleton or to `Option.Some`. -/
def maybeE (v : PyVal) : Except PyErr Opt :=
  if v = .vnone then NONEE else SomeE v

/-- Python `Option.value` property: the wrapped value when `Some`, otherwise raises
`ValueError("Value is NONE.")`. -/
def value (o : Opt) : Except PyErr PyVal :=
  if o.is_some then .ok o.val
  else .error (.valueError (.vstr "Value is NONE."))

/-- Python `Option.unwrap()`: returns `self.value`. -/
def unwrap (o : Opt) : Except PyErr PyVal := o.value

/-- Python `Option.expect(msg)`: the wrapped value when `Some`, otherwise raises
`ValueError(msg)`. -/
def expect (o : Opt) (msg : PyVal) : Except PyErr PyVal :=
  if o.is_some then .ok o.val else .error (.valueError msg)

/-- Python `Option.flatmap(callback)`: `callback(self._val)` when `Some`, else
`NONE`. -/
def flatmap (o : Opt) (callback : PyVal → Opt) : Opt :=
  if o.is_some then callback o.val else NONE

/-- Python `Option.get(key, default=None)`: when the container is `Some` of a
mapping, `maybe(self._val.get(key, default))`; otherwise `maybe(default)`.
The Python default argument `None` is passed explicitly as `.vnone` here. -/
def get (o : Opt) (key : String) (default : PyVal) : Opt :=
  match o.is_some, o.val with
  | true, .vdict entries => maybe (dictGet entries key default)
  | _, _ => maybe default

/-- Python `Option.__eq__` between two containers of this exact type: same variant
flag and payloads comparing equal. -/
def eq (a b : Opt) : Bool :=
  a.is_some == b.is_some && a.val == b.val

/-- Python `Option.__lt__` between two containers of this exact type, with the
payload comparison `pl` (Python delegates `self._val < other._val` to the
payloads): same variant compares payloads when `Some` (`False` for two
`NONE`); across variants the result is `other._is_some`. -/
def ltWith (pl : PyVal → PyVal → Bool) (a b : Opt) : Bool :=
  if a.is_some == b.is_some then
    (if a.is_some then pl a.val b.val else false)
  else b.is_some

end Opt

/-- The `Result[T, E]` container of `result.py`: slots `_val` and `_is_ok`
(`Ok(x)` has `is_ok = true`, `Err(e)` has `is_ok = false`). -/
structure Res : Type where
  val : PyVal
  is_ok : Bool
deriving DecidableEq, Repr

namespace Res

/-- Python `Result.Ok(val)`: the state produced by `cls(val, True, _force=True)`. -/
def Ok (v : PyVal) : Res := ⟨v, true⟩

/-- Python `Result.Err(err)`: the state produced by `cls(err, False, _force=True)`. -/
def Err (e : PyVal) : Res := ⟨e, false⟩

/-- Python `Result.__init__(val, is_ok, _force)`: raises `TypeError(guardMsg)`
unless `_force` is set, otherwise assigns the slots. -/
def init (val : PyVal) (is_ok force : Bool) : Except PyErr Res :=
  if !force then .error (.typeError guardMsg)
  else .ok ⟨val, is_ok⟩

/-- Python `Result.Ok` as its Python body runs it: `cls(val, True, _force=True)`. -/
def OkE (v : PyVal) : Except PyErr Res := init v true true

/-- Python `Result.Err` as its Python body runs it: `cls(err, False, _force=True)`. -/
def ErrE (e : PyVal) : Except PyErr Res := init e false true

/-- Python `Result.flatmap(op)`: `op(self._val)` when `Ok`, otherwise `self`. -/
def flatmap (r : Res) (op : PyVal → Res) : Res :=
  if r.is_ok then op r.val else r

/-- Python `Result.unwrap()`: the success value when `Ok`, otherwise raises
`ValueError(self._val)` carrying the wrapped error value. -/
def unwrap (r : Res) : Except PyErr PyVal :=
  if r.is_ok then .ok r.val else .error (.valueError r.val)

/-- Python `Result.unwrap_err()`: the error value when `Err`, otherwise raises
`ValueError(self._val)` carrying the wrapped success value. -/
def unwrap_err (r : Res) : Except PyErr PyVal :=
  if r.is_ok then .error (.valueError r.val) else .ok r.val

/-- Python `Result.ok()` (the spec's `to_ok_option`): `Option.Some(self._val)` when
`Ok`, otherwise the `NONE` singleton. -/
def ok (r : Res) : Opt :=
  if r.is_ok then Opt.Some r.val else Opt.NONE

/-- Python `Result.err()` (the spec's `to_err_option`): the `NONE` singleton when
`Ok`, otherwise `Option.Some(self._val)`. -/
def err (r : Res) : Opt :=
  if r.is_ok then Opt.NONE else Opt.Some r.val

/-- Python `Result.__eq__` between two containers of this exact type: same variant
flag and payloads comparing equal. -/
def eq (a b : Res) : Bool :=
  a.is_ok == b.is_ok && a.val == b.val

/-- Python `Result.__lt__` between two containers of this exact type, with the
payload comparison `pl`: same variant always delegates to the payloads;
across variants the result is `self._is_ok`. -/
def ltWith (pl : PyVal → PyVal → Bool) (a b : Res) : Bool :=
  if a.is_ok == b.is_ok then pl a.val b.val
  else a.is_ok

end Res

/-- Type marker distinguishing the two container classes inside the hashed
tuple (`self.__class__` in `Option.__hash__`, `self._type` in
`Result.__hash__`). -/
inductive ClassTag : Type where
  | optionClass : ClassTag
  | resultClass : ClassTag
deriving DecidableEq, Repr

/-- Python `Option.__hash__`: `hash((self.__class__, self._is_some, self._val))`,
where `h` models Python's deterministic hash of the tuple. -/
def Opt.hashWith (h : ClassTag × Bool × PyVal → Int) (o : Opt) : Int :=
  h (ClassTag.optionClass, o.is_some, o.val)

/-- Python `Result.__hash__`: `hash((self._type, self._is_ok, self._val))`, where
`h` models Python's deterministic hash of the tuple. -/
def Res.hashWith (h : ClassTag × Bool × PyVal → Int) (r : Res) : Int :=
  h (ClassTag.resultClass, r.is_ok, r.val)

/-- Model of the spec scenario's integer lambdas `lambda x: x + 1` on the
container payloads (the scenarios only ever apply them to integers). -/
def addOne : PyVal → PyVal
  | .vint n => .vint (n + 1)
  | v => v

/-- Reflexivity of the containers' `__eq__`: a container equals itself. -/
theorem Opt.eq_self (o : Opt) : Opt.eq o o = true := by
  simp [Opt.eq]

/-- C1 counterexample: the chain
`ok(2).flat_map(x ↦ ok(x+1)).flat_map(x ↦ err(x+1))` does NOT equal
`err(5)` — the claim's stated equality is false on the code. -/
theorem c1_flatmap_chain_counterexample :
    Res.eq (((Res.Ok (.vint 2)).flatmap (fun x => Res.Ok (addOne x))).flatmap
      (fun x => Res.Err (addOne x))) (Res.Err (.vint 5)) = false := by
  decide

/-- C1 (amended): the chain
`ok(2).flat_map(x ↦ ok(x+1)).flat_map(x ↦ err(x+1))` equals `err(4)`
(2 → ok(3) → err(4)). -/
theorem c1_flatmap_chain :
    Res.eq (((Res.Ok (.vint 2)).flatmap (fun x => Res.Ok (addOne x))).flatmap
      (fun x => Res.Err (addOne x))) (Res.Err (.vint 4)) = true := by
  decide

/-- C3: `unwrap()` on the `Absent` container fails with
`ValueError("Value is NONE.")` (the spec's `EmptyValueError`), `expect(msg)`
on `Absent` fails with `ValueError(msg)`, and on a `Present` container both
return the wrapped value without failing. -/
theorem c3_option_extraction_errors :
    Opt.NONE.unwrap = .error (.valueError (.vstr "Value is NONE.")) ∧
    (∀ msg, Opt.NONE.expect msg = .error (.valueError msg)) ∧
    (∀ v msg, (Opt.Some v).unwrap = .ok v ∧ (Opt.Some v).expect msg = .ok v) :=
  ⟨rfl, fun _ => rfl, fun _ _ => ⟨rfl, rfl⟩⟩

/-- C4: `unwrap()` on a `Failure` fails with `ValueError` (the spec's
`UnwrapError`) carrying the wrapped error value, `unwrap_err()` on a
`Success` fails with `ValueError` carrying the wrapped success value, and
each returns the matching channel's value when the variant matches. -/
theorem c4_result_extraction_errors :
    ∀ v e : PyVal,
      (Res.Err e).unwrap = .error (.valueError e) ∧
      (Res.Ok v).unwrap_err = .error (.valueError v) ∧
      (Res.Ok v).unwrap = .ok v ∧
      (Res.Err e).unwrap_err = .ok e :=
  fun _ _ => ⟨rfl, rfl, rfl, rfl⟩

/-- C5: direct calls of either bare constructor without the bypass flag
always fail with the construction-guard `TypeError`, while every named
factory (`Some`, the `NONE` singleton, `maybe`, `Ok`, `Err`) succeeds
without this failure. -/
theorem c5_factory_only_construction :
    (∀ v b, Opt.init v b false = .error (.typeError guardMsg)) ∧
    (∀ v b, Res.init v b false = .error (.typeError guardMsg)) ∧
    (∀ v, Opt.SomeE v = .ok (Opt.Some v)) ∧
    Opt.NONEE = .ok Opt.NONE ∧
    (∀ v, Opt.maybeE v = .ok (Opt.maybe v)) ∧
    (∀ v, Res.OkE v = .ok (Res.Ok v)) ∧
    (∀ e, Res.ErrE e = .ok (Res.Err e)) := by
  refine ⟨fun v b => rfl, fun v b => rfl, fun v => rfl, rfl, ?_,
    fun v => rfl, fun e => rfl⟩
  intro v
  by_cases h : v = PyVal.vnone <;>
    simp [Opt.maybeE, Opt.maybe, Opt.NONEE, Opt.SomeE, Opt.init, h,
      Opt.NONE, Opt.Some]

/-- C6: cross-variant ordering is the fixed tie-break — `NONE < Some x` is
true and never the reverse, `Ok a < Err b` is true for all payloads and
never the reverse; within the same variant `__lt__` delegates to the
payloads' comparison `pl`. -/
theorem c6_cross_variant_ordering :
    ∀ (pl : PyVal → PyVal → Bool) (x a b : PyVal),
      Opt.ltWith pl Opt.NONE (Opt.Some x) = true ∧
      Opt.ltWith pl (Opt.Some x) Opt.NONE = false ∧
      Res.ltWith pl (Res.Ok a) (Res.Err b) = true ∧
      Res.ltWith pl (Res.Err b) (Res.Ok a) = false ∧
      Opt.ltWith pl (Opt.Some a) (Opt.Some b) = pl a b ∧
      Res.ltWith pl (Res.Ok a) (Res.Ok b) = pl a b ∧
      Res.ltWith pl (Res.Err a) (Res.Err b) = pl a b :=
  fun _ _ _ _ => ⟨rfl, rfl, rfl, rfl, rfl, rfl, rfl⟩

/-- C7: the Result→Option bridge round-trips — `ok(x).ok() == Some(x)`,
`ok(x).err() == NONE`, `err(e).ok() == NONE`, `err(e).err() == Some(e)`,
under the containers' own `__eq__`. -/
theorem c7_bridge_roundtrip :
    ∀ x e : PyVal,
      Opt.eq (Res.Ok x).ok (Opt.Some x) = true ∧
      Opt.eq (Res.Ok x).err Opt.NONE = true ∧
      Opt.eq (Res.Err e).ok Opt.NONE = true ∧
      Opt.eq (Res.Err e).err (Opt.Some e) = true := by
  intro x e
  exact ⟨Opt.eq_self _, Opt.eq_self _, Opt.eq_self _, Opt.eq_self _⟩

/-- C8: `flat_map` on the Optional container is associative —
`Some(x).flatmap(f).flatmap(g) == Some(x).flatmap(v ↦ f(v).flatmap(g))`
for every payload `x` and all callbacks `f`, `g`. -/
theorem c8_option_flatmap_assoc :
    ∀ (x : PyVal) (f g : PyVal → Opt),
      Opt.eq (((Opt.Some x).flatmap f).flatmap g)
        ((Opt.Some x).flatmap fun v => (f v).flatmap g) = true := by
  intro x f g
  have h : ((Opt.Some x).flatmap f).flatmap g =
      (Opt.Some x).flatmap fun v => (f v).flatmap g := rfl
  rw [h]
  exact Opt.eq_self _

/-- C9: hash is consistent with equality — for any deterministic tuple hash
`h`, `__eq__` containers (either family) have equal `__hash__` values; the
hash is the hash of (type marker, variant flag, payload); the `NONE`
singleton's hash is the fixed hash of its tuple. -/
theorem c9_hash_eq_consistency :
    ∀ (h : ClassTag × Bool × PyVal → Int) (a b : Opt) (r s : Res),
      (Opt.eq a b = true → Opt.hashWith h a = Opt.hashWith h b) ∧
      (Res.eq r s = true → Res.hashWith h r = Res.hashWith h s) ∧
      Opt.hashWith h Opt.NONE = h (ClassTag.optionClass, false, .vnone) := by
  intro h a b r s
  refine ⟨?_, ?_, rfl⟩
  · intro hab
    obtain ⟨h1, h2⟩ : a.is_some = b.is_some ∧ a.val = b.val := by
      simpa [Opt.eq] using hab
    simp [Opt.hashWith, h1, h2]
  · intro hrs
    obtain ⟨h1, h2⟩ : r.is_ok = s.is_ok ∧ r.val = s.val := by
      simpa [Res.eq] using hrs
    simp [Res.hashWith, h1, h2]

/-- C9 witness: the consistency theorem applied at a concrete hash function
and concrete equal containers of each family. -/
theorem c9_hash_eq_consistency_witness :
    Opt.hashWith (fun _ => (7 : Int)) (Opt.Some (.vint 1)) =
      Opt.hashWith (fun _ => (7 : Int)) (Opt.Some (.vint 1)) ∧
    Res.hashWith (fun _ => (7 : Int)) (Res.Err (.vstr "e")) =
      Res.hashWith (fun _ => (7 : Int)) (Res.Err (.vstr "e")) :=
  ⟨(c9_hash_eq_consistency (fun _ => (7 : Int)) (Opt.Some (.vint 1))
      (Opt.Some (.vint 1)) (Res.Err (.vstr "e")) (Res.Err (.vstr "e"))).1
      (by decide),
   (c9_hash_eq_consistency (fun _ => (7 : Int)) (Opt.Some (.vint 1))
      (Opt.Some (.vint 1)) (Res.Err (.vstr "e")) (Res.Err (.vstr "e"))).2.1
      (by decide)⟩

/-- C2 counterexample: for the `Present` mapping `{"a": None}` the key `"a"`
exists, yet `get("a", 7)` returns the `NONE` singleton — not `Present` of
the mapped value (`Some(None)`) and not `Present(default)` — so the claim's
"key exists ⟹ Present of the mapped value" is false on the code. -/
theorem c2_get_counterexample :
    (Opt.Some (.vdict [("a", .snone)])).get "a" (.vint 7) = Opt.NONE ∧
    Opt.eq Opt.NONE (Opt.Some .vnone) = false ∧
    Opt.eq Opt.NONE (Opt.Some (.vint 7)) = false := by
  decide

/-- C2 (amended): on a `Present` mapping, `get` returns `Present` of the
mapped value when the key exists and the stored value is not the null
sentinel; it returns `NONE` when the stored value is the null sentinel;
when the key is missing, or the container is `Absent`, or the payload is
not map-shaped, it returns `Present(default)` for a non-null default and
`NONE` when the default is the null sentinel; `get` is total (never raises
for a missing key); the three spec scenarios hold. -/
theorem c2_get_characterization :
    (∀ entries key d v, dictLookup entries key = some v →
      v ≠ PyScalar.snone →
      (Opt.Some (.vdict entries)).get key d = Opt.Some v.toVal) ∧
    (∀ entries key d, dictLookup entries key = some PyScalar.snone →
      (Opt.Some (.vdict entries)).get key d = Opt.NONE) ∧
    (∀ entries key d, dictLookup entries key = none → d ≠ PyVal.vnone →
      (Opt.Some (.vdict entries)).get key d = Opt.Some d) ∧
    (∀ entries key, dictLookup entries key = none →
      (Opt.Some (.vdict entries)).get key .vnone = Opt.NONE) ∧
    (∀ (o : Opt) (key : String) (d : PyVal),
      o.is_some = false ∨ o.val.isMapping = false →
      o.get key d = Opt.maybe d) ∧
    Opt.eq ((Opt.Some (.vdict [("a", .sint 1)])).get "a" .vnone)
      (Opt.Some (.vint 1)) = true ∧
    Opt.eq ((Opt.Some (.vdict [])).get "missing" (.vint 7))
      (Opt.Some (.vint 7)) = true ∧
    Opt.eq (Opt.NONE.get "x" .vnone) Opt.NONE = true := by
  refine ⟨?_, ?_, ?_, ?_, ?_, by decide, by decide, by decide⟩
  · intro entries key d v hlook hv
    have htv : v.toVal ≠ PyVal.vnone := by
      cases v <;> simp [PyScalar.toVal] at hv ⊢
    simp [Opt.get, Opt.Some, dictGet, hlook, Opt.maybe, htv]
  · intro entries key d hlook
    simp [Opt.get, Opt.Some, dictGet, hlook, Opt.maybe, PyScalar.toVal]
  · intro entries key d hlook hd
    simp [Opt.get, Opt.Some, dictGet, hlook, Opt.maybe, hd]
  · intro entries key hlook
    simp [Opt.get, Opt.Some, dictGet, hlook, Opt.maybe]
  · intro o key d h
    rcases h with h | h
    · match o, h with
      | ⟨v, false⟩, _ => cases v <;> rfl
    · match o, ho : o.is_some with
      | ⟨v, false⟩, _ => cases v <;> rfl
      | ⟨v, true⟩, _ =>
        cases v <;> simp_all [PyVal.isMapping] <;> rfl

/-- C2 witness: the characterization applied at concrete inputs — an
existing key with a non-null stored value yields `Present` of that value. -/
theorem c2_get_characterization_witness :
    (Opt.Some (.vdict [("b", .sint 2)])).get "b" (.vint 9) =
      Opt.Some (.vint 2) :=
  c2_get_characterization.1 [("b", .sint 2)] "b" (.vint 9) (.sint 2)
    (by decide) (by decide)

/-- C10: when a `Present` mapping stores the null sentinel under an
existing key, `get(key, default)` returns the `NONE` singleton for every
default — not `Present(None)` and not `Present(default)`: the stored
`None` is looked up, bypasses the default, and the nullable filter
(`maybe`) converts it to `Absent`. -/
theorem c10_get_stored_none_absent :
    ∀ entries key d, dictLookup entries key = some PyScalar.snone →
      (Opt.Some (.vdict entries)).get key d = Opt.NONE ∧
      Opt.eq ((Opt.Some (.vdict entries)).get key d) (Opt.Some .vnone)
        = false ∧
      Opt.eq ((Opt.Some (.vdict entries)).get key d) (Opt.Some d) = false := by
  intro entries key d hlook
  have hget : (Opt.Some (.vdict entries)).get key d = Opt.NONE := by
    simp [Opt.get, Opt.Some, dictGet, hlook, Opt.maybe, PyScalar.toVal]
  refine ⟨hget, ?_, ?_⟩ <;> rw [hget] <;> rfl

/-- C10 witness: the stored-`None` theorem applied at the concrete mapping
`{"a": None}` with key `"a"` and non-null default `7`. -/
theorem c10_get_stored_none_absent_witness :
    (Opt.Some (.vdict [("a", .snone)])).get "a" (.vint 7) = Opt.NONE ∧
    Opt.eq ((Opt.Some (.vdict [("a", .snone)])).get "a" (.vint 7))
      (Opt.Some .vnone) = false ∧
    Opt.eq ((Opt.Some (.vdict [("a", .snone)])).get "a" (.vint 7))
      (Opt.Some (.vint 7)) = false :=
  c10_get_stored_none_absent [("a", .snone)] "a" (.vint 7) (by decide)
